import Mathlib

/-!
Verification development for the gloom arcade-shooter engine
(`tkgame_gloom.py`).  The Python source is shallowly embedded: pure
functions become Lean functions, mutable objects become explicit state
records, Python `int` becomes `Int`/`Nat`, exact fractional arithmetic
becomes `Rat`, and the square-root based vector geometry becomes `Real`.
Python sets and dicts that the tilemap parser mutates are embedded as
lists with head-shadowing insertion, which has the same membership and
lookup semantics that the source relies on.
-/

/-! ## Rational 2D vectors (class `Vector2`, fields used by the geometry) -/

/-- Embedding of `Vector2` for the division-only geometry (segment
intersection, box containment, tilemap cell coordinates).  The source
stores Python floats; all claims about these operations concern exact
field arithmetic, so the embedding uses `Rat`. -/
structure Vector2 where
  x : ℚ
  y : ℚ
deriving DecidableEq, Repr

/-- Boxes store two corner points; the source keeps them in a `Coords`
container holding exactly two vectors for every collidable element. -/
abbrev Coords := Vector2 × Vector2

/-- Embedding of module-level `intersect(p1, p2, p3, p4)`: Cramer-rule
segment intersection, `none` for the parallel (zero denominator) case or
an intersection parameter outside `[0, 1]` on either segment. -/
def intersect (p1 p2 p3 p4 : Vector2) : Option Vector2 :=
  let denom := (p4.y - p3.y) * (p2.x - p1.x) - (p4.x - p3.x) * (p2.y - p1.y)
  if denom = 0 then none
  else
    let ua := ((p4.x - p3.x) * (p1.y - p3.y) - (p4.y - p3.y) * (p1.x - p3.x)) / denom
    if ua < 0 ∨ 1 < ua then none
    else
      let ub := ((p2.x - p1.x) * (p1.y - p3.y) - (p2.y - p1.y) * (p1.x - p3.x)) / denom
      if ub < 0 ∨ 1 < ub then none
      else some ⟨p1.x + ua * (p2.x - p1.x), p1.y + ua * (p2.y - p1.y)⟩

/-- The four corner points `HasCollision.__init__` derives from the two
stored corners (`self.points`). -/
def boxPoints (c : Coords) : List Vector2 :=
  [c.1, c.2, ⟨c.1.x, c.2.y⟩, ⟨c.2.x, c.1.y⟩]

/-- The two diagonal segments `HasCollision.__init__` stores
(`self.lines`): main diagonal and anti-diagonal of the corner pair. -/
def boxLines (c : Coords) : List (Vector2 × Vector2) :=
  [(c.1, c.2), (⟨c.1.x, c.2.y⟩, ⟨c.2.x, c.1.y⟩)]

/-- Embedding of `HasCollision.line_cross_check`: the segment crosses the
box when it intersects either stored diagonal (a returned point is a
non-empty tuple, hence truthy, in the source). -/
def line_cross_check (c : Coords) (p1 p2 : Vector2) : Bool :=
  (boxLines c).any (fun l => (intersect p1 p2 l.1 l.2).isSome)

/-- Embedding of `HasCollision.collision_check` restricted to its
returned boolean (the `on_collide` hook only consumes a positive
result).  `selfC`/`other` are the stored corner pairs, `can_collide` the
instance flag checked first. -/
def collision_check (selfC : Coords) (can_collide : Bool) (other : Coords) : Bool :=
  if !can_collide then false
  else
    ((boxPoints other).any fun p =>
        decide (selfC.1.x ≤ p.x) && decide (p.x ≤ selfC.2.x) &&
        decide (selfC.1.y ≤ p.y) && decide (p.y ≤ selfC.2.y)) ||
    ((boxPoints selfC).any fun p =>
        decide (other.1.x ≤ p.x) && decide (p.x ≤ other.2.x) &&
        decide (other.1.y ≤ p.y) && decide (p.y ≤ other.2.y))

/-! ## Weapon ammo state machine (`Weapon`) -/

/-- Per-class ballistic constants of a `Weapon` subclass. -/
structure WeaponClass where
  rng : ℚ
  dmg : ℚ
  pierce : ℚ
  speed : ℚ
  spread : ℚ
  bullets_per_mg : Nat
  bullets_per_shot : Nat
  bullet_size : ℚ
  rate : Int
  reload_rate : Int
deriving DecidableEq, Repr

/-- Mutable ammo/cooldown fields of a `Weapon` instance. -/
structure WeaponState where
  until_shoot : Int
  until_reload : Int
  bullets_left_in_magazine : Int
  bullets_left : Int
deriving DecidableEq, Repr

/-- Embedding of `Weapon.__init__(num_bullets)`: zero cooldowns, full
magazine, `bullets_left` set to the constructor argument. -/
def Weapon.init (c : WeaponClass) (num_bullets : Int) : WeaponState :=
  { until_shoot := 0
    until_reload := 0
    bullets_left_in_magazine := (c.bullets_per_mg : Int)
    bullets_left := num_bullets }

/-- Embedding of `Weapon.reload`: reset the reload cooldown, subtract the
current magazine contents from the total pool, then add a full magazine
count to the magazine contents. -/
def Weapon.reload (c : WeaponClass) (w : WeaponState) : WeaponState :=
  { w with
    until_reload := c.reload_rate
    bullets_left := w.bullets_left - w.bullets_left_in_magazine
    bullets_left_in_magazine := w.bullets_left_in_magazine + (c.bullets_per_mg : Int) }

/-- Embedding of `range(a, b)` over integers. -/
def pyRange (a b : Int) : List Int :=
  (List.range (b - a).toNat).map (fun (i : Nat) => a + (i : Int))

/-- Embedding of the `_bullet_angle` constant `spread / bullets_per_shot`. -/
def Weapon.bullet_angle (c : WeaponClass) : ℚ :=
  c.spread / (c.bullets_per_shot : ℚ)

/-- Embedding of the `_bullet_angles` tuple: the spread multipliers
`chain(range(-(bps // 2), bps % 2), range(1, bps // 2 + 1))`, each scaled
by `_bullet_angle`. -/
def Weapon.bullet_angles (c : WeaponClass) : List ℚ :=
  ((pyRange (-((c.bullets_per_shot / 2 : Nat) : Int)) ((c.bullets_per_shot % 2 : Nat) : Int)) ++
      pyRange 1 (((c.bullets_per_shot / 2 : Nat) : Int) + 1)).map
    (fun (mult : Int) => Weapon.bullet_angle c * (mult : ℚ))

/-- Constants of the `Pistol` weapon class. -/
def Pistol : WeaponClass :=
  { rng := 500, dmg := 10, pierce := 50, speed := 10, spread := 0
    bullets_per_mg := 15, bullets_per_shot := 1, bullet_size := 3
    rate := 25, reload_rate := 75 }

/-- Constants of the `Shotgun` weapon class. -/
def Shotgun : WeaponClass :=
  { rng := 400, dmg := 20, pierce := 40, speed := 15, spread := 12
    bullets_per_mg := 5, bullets_per_shot := 5, bullet_size := 2
    rate := 0, reload_rate := 75 }

/-! ## Line-of-sight bookkeeping (`GLOOM.check_line_collision`) -/

/-- The module constant gating the wall visibility memory. -/
def ENABLE_WALL_VISIBILITY_CHECK : Bool := true

/-- A live wall object: its corner pair plus an identifier standing for
Python object identity (the source compares walls with default `==`,
which is identity). -/
structure WallS where
  wid : Nat
  coords : Coords
deriving DecidableEq, Repr

/-- List membership test for wall objects (Python `in` on a list). -/
def wallMem : List WallS → WallS → Bool
  | [], _ => false
  | w :: rest, t => if w = t then true else wallMem rest t

/-- Removal of the first occurrence (Python `list.remove`). -/
def removeFirst : List WallS → WallS → List WallS
  | [], _ => []
  | w :: rest, t => if w = t then rest else w :: removeFirst rest t

/-- The per-level wall collections owned by the `GLOOM` game object that
`check_line_collision` reads and writes: the collidable walls and the
not-yet-seen walls. -/
structure LOSState where
  walls : List WallS
  unseen_walls : List WallS
deriving DecidableEq, Repr

/-- Embedding of `GLOOM.check_line_collision(p1, p2, what, ignore)`.
Subjects that are `Wall` instances are passed as `some w`; any other
game element is `none` (it can never be contained in either wall list,
which is how the source's `isinstance` test and list membership behave).
Returns the blocking verdict together with the updated state. -/
def check_line_collision (s : LOSState) (p1 p2 : Vector2)
    (what ignore : Option WallS) : Bool × LOSState :=
  if (match what with
      | some w => !ENABLE_WALL_VISIBILITY_CHECK || !wallMem s.unseen_walls w
      | none => false) then
    (false, s)
  else
    let walls := match ignore with
      | some ig => if wallMem s.walls ig then removeFirst s.walls ig else s.walls
      | none => s.walls
    if walls.any (fun w => line_cross_check w.coords p1 p2) then
      (true, s)
    else
      match what with
      | some w =>
          if wallMem s.unseen_walls w then
            (false, { s with unseen_walls := removeFirst s.unseen_walls w })
          else (false, s)
      | none => (false, s)

/-- A sample wall for concrete line-of-sight runs: the box from (10, 0)
to (20, 10). -/
def sampleWall : WallS := ⟨0, (⟨10, 0⟩, ⟨20, 10⟩)⟩

/-- A freshly-built level state in which `sampleWall` is collidable and
not yet seen. -/
def sampleLOSState : LOSState := ⟨[sampleWall], [sampleWall]⟩

/-! ## Damage model (`PlayerOrEnemy.hit`) -/

/-- The bullet fields `hit` reads. -/
structure Bullet where
  dmg : ℚ
  pierce : ℚ
deriving DecidableEq, Repr

/-- The `PlayerOrEnemy` fields `hit` touches. -/
structure POE where
  hp : ℚ
  armor : ℚ
  dead : Bool
deriving DecidableEq, Repr

/-- Embedding of `PlayerOrEnemy.hit(bullet)`.  The boolean reports
whether this call marked the entity dead, fired the `on_die` hook and
emitted the `"die"` event (those three happen together in the source). -/
def hit (e : POE) (b : Bullet) : POE × Bool :=
  if e.dead then (e, false)
  else
    let hp' := e.hp - b.dmg * (b.pierce / 100)
    let armor' := max (e.armor - b.dmg * (1 - b.pierce / 100)) 0
    if hp' ≤ 0 then ({ hp := hp', armor := armor', dead := true }, true)
    else ({ hp := hp', armor := armor', dead := false }, false)

/-- Folding `hit` over a bullet sequence, counting the emitted `"die"`
events. -/
def hitMany : POE → List Bullet → POE × Nat
  | e, [] => (e, 0)
  | e, b :: bs =>
      let r := hit e b
      let rest := hitMany r.1 bs
      (rest.1, (if r.2 then 1 else 0) + rest.2)

/-! ## Tilemap parsing (`Tilemap.__init__`)

The grid loop scans each line character by character, skipping columns
greater than 64, and greedily merges `#` cells (and digit door cells)
into rectangles.  The Python dicts `wall_indices` / `door_indices` are
embedded as association lists with head-shadowing insertion, and the
merge sets as lists whose only consumed operation is membership.  The
write-only `self.tilemap` grid (never read after construction) is not
modelled. -/

/-- Membership in an embedded cell-position set. -/
def posMem : List (Nat × Nat) → Nat × Nat → Bool
  | [], _ => false
  | p :: rest, k => if p = k then true else posMem rest k

/-- Adding to an embedded cell-position set (`set.add`). -/
def posAdd (l : List (Nat × Nat)) (k : Nat × Nat) : List (Nat × Nat) :=
  if posMem l k then l else k :: l

/-- Lookup in an embedded cell-position dict. -/
def idxLookup : List ((Nat × Nat) × Nat) → Nat × Nat → Option Nat
  | [], _ => none
  | (p, i) :: rest, k => if p = k then some i else idxLookup rest k

/-- Overwrite the second corner of the rectangle at index `i`
(`self.walls[i][1][1] = cell_coords[1]`). -/
def setSnd : List Coords → Nat → Vector2 → List Coords
  | [], _, _ => []
  | c :: rest, 0, v => (c.1, v) :: rest
  | c :: rest, n + 1, v => c :: setSnd rest n v

/-- Overwrite the second corner of the door rectangle at index `i`
(`self.doors[i][1][1] = cell_coords[1]`); door entries also carry their
class index. -/
def setSndD : List (Int × Coords) → Nat → Vector2 → List (Int × Coords)
  | [], _, _ => []
  | c :: rest, 0, v => (c.1, (c.2.1, v)) :: rest
  | c :: rest, n + 1, v => c :: setSndD rest n v

/-- ASCII reading of Python `char.isalpha() and char.isupper()` for the
grid symbols (uppercase letter = enemy spawn). -/
def isUpperAZ (c : Char) : Bool := decide (65 ≤ c.toNat) && decide (c.toNat ≤ 90)

/-- ASCII reading of Python `char.isalpha() and char.islower()`
(lowercase letter = item spawn). -/
def isLowerAZ (c : Char) : Bool := decide (97 ≤ c.toNat) && decide (c.toNat ≤ 122)

/-- ASCII reading of Python `char.isnumeric()` (digit = door spawn). -/
def isDigit09 (c : Char) : Bool := decide (48 ≤ c.toNat) && decide (c.toNat ≤ 57)

/-- Embedding of `Tilemap.calculate_cell_coords(x, y)` for a cell size
`cs` (`screen_size.notdot(1 / resolution)` in the source). -/
def cellCoords (cs : Vector2) (x y : Nat) : Coords :=
  (⟨(x : ℚ) * cs.x, (y : ℚ) * cs.y⟩,
   ⟨((x : ℚ) + 1) * cs.x, ((y : ℚ) + 1) * cs.y⟩)

/-- The collections `Tilemap.__init__` builds while scanning the grid.
Enemy/item entries store the class-table index the source computes from
the letter; door entries store `int(char) - 1`. -/
structure TilemapState where
  walls : List Coords
  doors : List (Int × Coords)
  items : List (Nat × Coords)
  enemies : List (Nat × Coords)
  player_coords : Option Coords
  exit_coords : Option Coords
  merged_vertical : List (Nat × Nat)
  merged_horizontal : List (Nat × Nat)
  wall_indices : List ((Nat × Nat) × Nat)
  door_merged_vertical : List (Nat × Nat)
  door_merged_horizontal : List (Nat × Nat)
  door_indices : List ((Nat × Nat) × Nat)
deriving DecidableEq, Repr

/-- The empty parser state at the top of `Tilemap.__init__`. -/
def initTilemapState : TilemapState :=
  { walls := [], doors := [], items := [], enemies := []
    player_coords := none, exit_coords := none
    merged_vertical := [], merged_horizontal := [], wall_indices := []
    door_merged_vertical := [], door_merged_horizontal := [], door_indices := [] }

/-- Embedding of one iteration of the grid character loop: the
column-cap skip, then the `#` / uppercase / lowercase / digit / `^` / `_`
branches.  The digit branch reproduces the source exactly, including its
vertical-merge test against the WALL set `merged_horizontal` rather than
`door_merged_horizontal`. -/
def processCell (cs : Vector2) (y x : Nat) (c : Char) (s : TilemapState) : TilemapState :=
  if 64 < x then s
  else
    let cc := cellCoords cs x y
    if c = '#' then
      if 0 < x ∧ (idxLookup s.wall_indices (x - 1, y)).isSome ∧
          posMem s.merged_vertical (x - 1, y) = false then
        let i := (idxLookup s.wall_indices (x - 1, y)).getD 0
        { s with
          wall_indices := ((x, y), i) :: s.wall_indices
          walls := setSnd s.walls i cc.2
          merged_horizontal := posAdd (posAdd s.merged_horizontal (x, y)) (x - 1, y) }
      else if 0 < y ∧ (idxLookup s.wall_indices (x, y - 1)).isSome ∧
          posMem s.merged_horizontal (x, y - 1) = false then
        let i := (idxLookup s.wall_indices (x, y - 1)).getD 0
        { s with
          wall_indices := ((x, y), i) :: s.wall_indices
          walls := setSnd s.walls i cc.2
          merged_vertical := posAdd (posAdd s.merged_vertical (x, y)) (x, y - 1) }
      else
        { s with
          wall_indices := ((x, y), s.walls.length) :: s.wall_indices
          walls := s.walls ++ [cc] }
    else if isUpperAZ c then
      { s with enemies := s.enemies ++ [(c.toNat - 65, cc)] }
    else if isLowerAZ c then
      { s with items := s.items ++ [(c.toNat - 97, cc)] }
    else if isDigit09 c then
      if 0 < x ∧ (idxLookup s.door_indices (x - 1, y)).isSome ∧
          posMem s.door_merged_vertical (x - 1, y) = false then
        let i := (idxLookup s.door_indices (x - 1, y)).getD 0
        { s with
          door_indices := ((x, y), i) :: s.door_indices
          doors := setSndD s.doors i cc.2
          door_merged_horizontal :=
            posAdd (posAdd s.door_merged_horizontal (x, y)) (x - 1, y) }
      else if 0 < y ∧ (idxLookup s.door_indices (x, y - 1)).isSome ∧
          posMem s.merged_horizontal (x, y - 1) = false then
        let i := (idxLookup s.door_indices (x, y - 1)).getD 0
        { s with
          door_indices := ((x, y), i) :: s.door_indices
          doors := setSndD s.doors i cc.2
          door_merged_vertical := posAdd (posAdd s.door_merged_vertical (x, y)) (x, y - 1) }
      else
        { s with
          door_indices := ((x, y), s.doors.length) :: s.door_indices
          doors := s.doors ++ [((c.toNat : Int) - 48 - 1, cc)] }
    else if c = '^' then { s with player_coords := some cc }
    else if c = '_' then { s with exit_coords := some cc }
    else s

/-- Scanning the rest of one grid line from column `x` on
(`for x, char in enumerate(nl)`). -/
def processCells (cs : Vector2) (y : Nat) : Nat → List Char → TilemapState → TilemapState
  | _, [], s => s
  | x, c :: rest, s => processCells cs y (x + 1) rest (processCell cs y x c s)

/-- Scanning the grid lines from row `y` on (the `while True` line loop,
the rows being the lines read before the `!end` terminator). -/
def processRows (cs : Vector2) : Nat → List (List Char) → TilemapState → TilemapState
  | _, [], s => s
  | y, row :: rest, s => processRows cs (y + 1) rest (processCells cs y 0 row s)

/-- Embedding of the whole grid scan of `Tilemap.__init__`. -/
def parseTilemap (cs : Vector2) (rows : List (List Char)) : TilemapState :=
  processRows cs 0 rows initTilemapState

/-- Modelled from the spec for refinement claim C5: the door branch as
the spec describes it, "the identical algorithm (with a separate
index/merge-state table)" — its vertical-merge test consults
`door_merged_horizontal` instead of the wall set.  Every other branch is
identical to `processCell`. -/
def processCellIndepDoors (cs : Vector2) (y x : Nat) (c : Char) (s : TilemapState) : TilemapState :=
  if 64 < x then s
  else
    let cc := cellCoords cs x y
    if c = '#' then processCell cs y x c s
    else if isUpperAZ c then processCell cs y x c s
    else if isLowerAZ c then processCell cs y x c s
    else if isDigit09 c then
      if 0 < x ∧ (idxLookup s.door_indices (x - 1, y)).isSome ∧
          posMem s.door_merged_vertical (x - 1, y) = false then
        let i := (idxLookup s.door_indices (x - 1, y)).getD 0
        { s with
          door_indices := ((x, y), i) :: s.door_indices
          doors := setSndD s.doors i cc.2
          door_merged_horizontal :=
            posAdd (posAdd s.door_merged_horizontal (x, y)) (x - 1, y) }
      else if 0 < y ∧ (idxLookup s.door_indices (x, y - 1)).isSome ∧
          posMem s.door_merged_horizontal (x, y - 1) = false then
        let i := (idxLookup s.door_indices (x, y - 1)).getD 0
        { s with
          door_indices := ((x, y), i) :: s.door_indices
          doors := setSndD s.doors i cc.2
          door_merged_vertical := posAdd (posAdd s.door_merged_vertical (x, y)) (x, y - 1) }
      else
        { s with
          door_indices := ((x, y), s.doors.length) :: s.door_indices
          doors := s.doors ++ [((c.toNat : Int) - 48 - 1, cc)] }
    else processCell cs y x c s

/-- Row scan driver for the spec-modelled door merge. -/
def processCellsIndepDoors (cs : Vector2) (y : Nat) :
    Nat → List Char → TilemapState → TilemapState
  | _, [], s => s
  | x, c :: rest, s =>
      processCellsIndepDoors cs y (x + 1) rest (processCellIndepDoors cs y x c s)

/-- Grid scan driver for the spec-modelled door merge. -/
def processRowsIndepDoors (cs : Vector2) :
    Nat → List (List Char) → TilemapState → TilemapState
  | _, [], s => s
  | y, row :: rest, s =>
      processRowsIndepDoors cs (y + 1) rest (processCellsIndepDoors cs y 0 row s)

/-- Spec-modelled whole-grid scan with independent door merge tables. -/
def parseTilemapIndepDoors (cs : Vector2) (rows : List (List Char)) : TilemapState :=
  processRowsIndepDoors cs 0 rows initTilemapState

/-! ## Real-valued vectors (`Vector2` operations that take square roots)

`Vector2.norm`, `normalize`, `polar` and `rotate_around_origin` involve
`math.sqrt` and `cmath.exp`; they are embedded over `Real`.  The source's
`from_polar` builds `radius * exp(1j * radians(angle))`, whose real and
imaginary parts are `radius * cos` and `radius * sin` of the radian
angle; `polar` returns `degrees(atan2(y, x))`, which is `Complex.arg` of
`x + y*I` converted to degrees. -/

/-- Real-valued 2D vector. -/
structure RVector2 where
  x : ℝ
  y : ℝ

/-- Embedding of `Vector2.norm`: `sqrt(x**2 + y**2)`. -/
noncomputable def RVector2.norm (v : RVector2) : ℝ :=
  Real.sqrt (v.x ^ 2 + v.y ^ 2)

/-- Embedding of `Vector2.__sub__`. -/
def RVector2.sub (v w : RVector2) : RVector2 := ⟨v.x - w.x, v.y - w.y⟩

/-- Embedding of `Vector2.__add__` (the source writes the summands as
`v2.x + self.x`). -/
def RVector2.add (v w : RVector2) : RVector2 := ⟨w.x + v.x, w.y + v.y⟩

/-- Embedding of `Vector2.__mul__` by a scalar. -/
def RVector2.mul (v : RVector2) (c : ℝ) : RVector2 := ⟨v.x * c, v.y * c⟩

/-- Embedding of `Vector2.normalize`: `self * (1 / self.norm)`. -/
noncomputable def RVector2.normalize (v : RVector2) : RVector2 :=
  v.mul (1 / v.norm)

/-- Degree part of `Vector2.polar`: `degrees(atan2(self.y, self.x))`. -/
noncomputable def RVector2.polar_angle (v : RVector2) : ℝ :=
  Complex.arg ⟨v.x, v.y⟩ * 180 / Real.pi

/-- Embedding of `Vector2.from_polar(angle, radius)`: real and imaginary
parts of `radius * exp(i * radians(angle))`. -/
noncomputable def RVector2.from_polar (angle radius : ℝ) : RVector2 :=
  ⟨radius * Real.cos (angle * Real.pi / 180), radius * Real.sin (angle * Real.pi / 180)⟩

/-- Embedding of `Vector2.rotate_around_origin(theta)`: polar round trip
with the angle shifted by `theta` degrees. -/
noncomputable def RVector2.rotate_around_origin (v : RVector2) (theta : ℝ) : RVector2 :=
  RVector2.from_polar (v.polar_angle + theta) v.norm

/-! ## Bullet emission (`Weapon.shoot`) and enemy approach movement -/

/-- One bullet descriptor produced by `Weapon.shoot` (the constructor
arguments of `Bullet.instantiate`). -/
structure BulletArgs where
  coords : RVector2 × RVector2
  friendly : Bool
  speed : ℚ
  dir : RVector2
  rng : ℚ
  dmg : ℚ
  pierce : ℚ

/-- Embedding of `Weapon.shoot(source, target, friendly, acc)`.  The
call `random.randint(-acc, acc)` is passed in as the oracle draw `racc`.
Resets the fire cooldown first; if the magazine cannot cover one shot it
reloads and returns `none` (`return None` in the source); otherwise it
decrements magazine and total ammo by `bullets_per_shot` and emits one
descriptor per precomputed spread angle, each rotated from the common
randomly-perturbed aim direction. -/
noncomputable def Weapon.shoot (c : WeaponClass) (w : WeaponState)
    (source target : RVector2) (friendly : Bool) (racc : Int) :
    WeaponState × Option (List BulletArgs) :=
  let w1 := { w with until_shoot := c.rate }
  if (c.bullets_per_shot : Int) > w1.bullets_left_in_magazine then
    (Weapon.reload c w1, none)
  else
    let w2 := { w1 with
      bullets_left_in_magazine := w1.bullets_left_in_magazine - (c.bullets_per_shot : Int)
      bullets_left := w1.bullets_left - (c.bullets_per_shot : Int) }
    let gdv := ((target.sub source).normalize).rotate_around_origin (racc : ℝ)
    let half : ℝ := ((⌊c.bullet_size / 2⌋ : Int) : ℝ)
    (w2, some ((Weapon.bullet_angles c).map (fun (angle : ℚ) =>
      { coords := (source.sub ⟨half, half⟩, source.add ⟨half, half⟩)
        friendly := friendly
        speed := c.speed
        dir := gdv.rotate_around_origin ((angle : ℝ))
        rng := c.rng
        dmg := c.dmg
        pierce := c.pierce })))

/-- Embedding of the approach movement vector `Enemy.sprite_tick`
computes when a target exists, is farther than 10 units away and ammo
remains: `(target - center).normalize() * speed * ((target -
center).norm / weapon.rng)`. -/
noncomputable def enemyApproachMovevect (center target : RVector2) (speed rng : ℝ) : RVector2 :=
  (((target.sub center).normalize).mul speed).mul ((target.sub center).norm / rng)

/-! ## Helper lemmas -/

theorem hitMany_nil (e : POE) : hitMany e [] = (e, 0) := rfl

theorem hitMany_cons (e : POE) (b : Bullet) (bs : List Bullet) :
    hitMany e (b :: bs) =
      ((hitMany (hit e b).1 bs).1,
        (if (hit e b).2 then 1 else 0) + (hitMany (hit e b).1 bs).2) := rfl

theorem hit_dead (e : POE) (b : Bullet) (h : e.dead = true) : hit e b = (e, false) := by
  simp [hit, h]

theorem hitMany_dead (e : POE) (bs : List Bullet) (h : e.dead = true) :
    (hitMany e bs).2 = 0 := by
  induction bs with
  | nil => rfl
  | cons b bs ih => simp [hitMany_cons, hit_dead e b h, ih]

theorem hit_event_dead (e : POE) (b : Bullet) (h : (hit e b).2 = true) :
    (hit e b).1.dead = true := by
  unfold hit at *
  by_cases hd : e.dead
  · simp [hd] at h
  · simp only [hd, if_false, Bool.false_eq_true] at *
    split at h
    · split
      · rfl
      · simp_all
    · simp at h

theorem hit_no_event_dead (e : POE) (b : Bullet) (h : (hit e b).2 = false) :
    (hit e b).1.dead = e.dead := by
  unfold hit at *
  by_cases hd : e.dead
  · simp [hd]
  · simp only [hd, if_false, Bool.false_eq_true] at *
    split at h
    · split
      · simp_all
      · simp_all
    · split
      · simp_all
      · simp_all

theorem hitMany_le_one (e : POE) (bs : List Bullet) : (hitMany e bs).2 ≤ 1 := by
  induction bs generalizing e with
  | nil => simp [hitMany_nil]
  | cons b bs ih =>
      rw [hitMany_cons]
      by_cases hev : (hit e b).2 = true
      · have hd := hit_event_dead e b hev
        simp [hev, hitMany_dead _ _ hd]
      · simp only [Bool.not_eq_true] at hev
        simpa [hev] using ih (hit e b).1

theorem processCell_ge65 (cs : Vector2) (y x : Nat) (c : Char) (s : TilemapState)
    (h : 65 ≤ x) : processCell cs y x c s = s := by
  unfold processCell
  rw [if_pos (by omega)]

theorem processCells_ge65 (cs : Vector2) (y : Nat) (l : List Char) :
    ∀ (x : Nat) (s : TilemapState), 65 ≤ x → processCells cs y x l s = s := by
  induction l with
  | nil => intro x s _; rfl
  | cons c rest ih =>
      intro x s h
      rw [processCells, processCell_ge65 cs y x c s h]
      exact ih (x + 1) s (by omega)

theorem processCells_take (cs : Vector2) (y : Nat) (l : List Char) :
    ∀ (x : Nat) (s : TilemapState),
      processCells cs y x l s = processCells cs y x (l.take (65 - x)) s := by
  induction l with
  | nil => intro x s; simp
  | cons c rest ih =>
      intro x s
      by_cases h : 65 ≤ x
      · rw [show 65 - x = 0 by omega]
        rw [processCells_ge65 cs y (c :: rest) x s h]
        rfl
      · rw [show 65 - x = (65 - (x + 1)) + 1 by omega, List.take_succ_cons]
        rw [processCells, processCells, ih (x + 1) (processCell cs y x c s)]

theorem processRows_take (cs : Vector2) (rows : List (List Char)) :
    ∀ (y : Nat) (s : TilemapState),
      processRows cs y rows s =
        processRows cs y (rows.map (fun r => r.take 65)) s := by
  induction rows with
  | nil => intro y s; rfl
  | cons row rest ih =>
      intro y s
      rw [List.map_cons, processRows, processRows]
      rw [show processCells cs y 0 (row.take 65) s = processCells cs y 0 row s by
        simpa using (processCells_take cs y row 0 s).symm]
      exact ih (y + 1) _

theorem processCell_dot (cs : Vector2) (y x : Nat) (s : TilemapState) :
    processCell cs y x '.' s = s := by
  simp +decide [processCell]

theorem processCells_dots (cs : Vector2) (y : Nat) (k : Nat) :
    ∀ (x : Nat) (s : TilemapState), processCells cs y x (List.replicate k '.') s = s := by
  induction k with
  | zero => intro x s; rfl
  | succ n ih =>
      intro x s
      rw [List.replicate_succ, processCells, processCell_dot, ih (x + 1) s]

theorem processCell_hash_extend (cs : Vector2) (x : Nat) (s : TilemapState) (a b : Vector2)
    (hw : s.walls = [(a, b)])
    (hi : idxLookup s.wall_indices (x - 1, 0) = some 0)
    (hm : s.merged_vertical = [])
    (hx : 0 < x) (hx64 : x ≤ 64) :
    (processCell cs 0 x '#' s).walls = [(a, (cellCoords cs x 0).2)] ∧
    idxLookup (processCell cs 0 x '#' s).wall_indices (x, 0) = some 0 ∧
    (processCell cs 0 x '#' s).merged_vertical = [] := by
  have key : processCell cs 0 x '#' s =
      { s with
        wall_indices := ((x, 0), 0) :: s.wall_indices
        walls := setSnd s.walls 0 (cellCoords cs x 0).2
        merged_horizontal := posAdd (posAdd s.merged_horizontal (x, 0)) (x - 1, 0) } := by
    unfold processCell
    rw [if_neg (by omega : ¬ 64 < x)]
    simp +decide [hi, hm, posMem, hx]
  rw [key]
  refine ⟨by simp [hw, setSnd], by simp [idxLookup], by simp [hm]⟩

theorem processCells_hash_run (cs : Vector2) (k : Nat) :
    ∀ (x : Nat) (s : TilemapState) (a : Vector2),
      s.walls = [(a, (cellCoords cs (x - 1) 0).2)] →
      idxLookup s.wall_indices (x - 1, 0) = some 0 →
      s.merged_vertical = [] →
      0 < x → x + k ≤ 65 →
      (processCells cs 0 x (List.replicate k '#') s).walls =
        [(a, (cellCoords cs (x + k - 1) 0).2)] := by
  induction k with
  | zero =>
      intro x s a hw hi hm hx hk
      simpa using hw
  | succ n ih =>
      intro x s a hw hi hm hx hk
      rw [List.replicate_succ, processCells]
      obtain ⟨hw', hi', hm'⟩ :=
        processCell_hash_extend cs x s a (cellCoords cs (x - 1) 0).2 hw hi hm hx (by omega)
      have := ih (x + 1) (processCell cs 0 x '#' s) a
        (by simpa using hw') (by simpa using hi') hm' (by omega) (by omega)
      simpa [show x + 1 + n - 1 = x + n by omega, show x + (n + 1) - 1 = x + n by omega]
        using this

theorem processCell_hash_new (cs : Vector2) (x : Nat) (s : TilemapState)
    (hw : s.walls = []) (hi : s.wall_indices = []) (hm : s.merged_vertical = [])
    (hx64 : x ≤ 64) :
    (processCell cs 0 x '#' s).walls = [cellCoords cs x 0] ∧
    idxLookup (processCell cs 0 x '#' s).wall_indices (x, 0) = some 0 ∧
    (processCell cs 0 x '#' s).merged_vertical = [] := by
  have key : processCell cs 0 x '#' s =
      { s with
        wall_indices := ((x, 0), s.walls.length) :: s.wall_indices
        walls := s.walls ++ [cellCoords cs x 0] } := by
    unfold processCell
    rw [if_neg (by omega : ¬ 64 < x)]
    simp +decide [hi, idxLookup]
  rw [key]
  refine ⟨by simp [hw], by simp [idxLookup, hw], by simp [hm]⟩

theorem processCells_append (cs : Vector2) (y : Nat) (l1 l2 : List Char) :
    ∀ (x : Nat) (s : TilemapState),
      processCells cs y x (l1 ++ l2) s =
        processCells cs y (x + l1.length) l2 (processCells cs y x l1 s) := by
  induction l1 with
  | nil => intro x s; simp [processCells]
  | cons c rest ih =>
      intro x s
      rw [List.cons_append, processCells, processCells, ih (x + 1)]
      simp [Nat.add_assoc, Nat.add_comm 1 rest.length]

theorem RVector2.norm_smul (v : RVector2) (c : ℝ) : (v.mul c).norm = |c| * v.norm := by
  unfold RVector2.norm RVector2.mul
  rw [show (v.x * c) ^ 2 + (v.y * c) ^ 2 = c ^ 2 * (v.x ^ 2 + v.y ^ 2) by ring,
    Real.sqrt_mul (sq_nonneg c), Real.sqrt_sq_eq_abs]

theorem pyRange_length (a b : Int) : (pyRange a b).length = (b - a).toNat := by
  unfold pyRange
  rw [List.length_map, List.length_range]

theorem bullet_angles_length (c : WeaponClass) :
    (Weapon.bullet_angles c).length = c.bullets_per_shot := by
  unfold Weapon.bullet_angles
  rw [List.length_map, List.length_append, pyRange_length, pyRange_length]
  omega

theorem removeFirst_subset (l : List WallS) (t : WallS) : removeFirst l t ⊆ l := by
  induction l with
  | nil => simp [removeFirst]
  | cons w rest ih =>
      by_cases h : w = t
      · simp [removeFirst, h, List.subset_cons_of_subset, List.Subset.refl]
      · simp only [removeFirst, h, if_false]
        exact List.cons_subset_cons w ih

theorem check_line_collision_unseen_mono (s : LOSState) (p1 p2 : Vector2)
    (what ignore : Option WallS) :
    ((check_line_collision s p1 p2 what ignore).2).unseen_walls ⊆ s.unseen_walls := by
  unfold check_line_collision
  cases what <;> cases ignore <;> dsimp only <;> split_ifs <;>
    first
      | exact List.Subset.refl _
      | exact removeFirst_subset _ _

/-! ## Claim C2 — visibility memory -/

/-- Claim C2, counterexample: a non-wall element's line-of-sight check
passes with `sampleWall` present (the segment from (0, 20) to (0, 30)
misses it), yet the very next check, whose segment from (0, 5) to
(30, 5) crosses the wall, is still blocked by it — a passed check does
not make the wall non-blocking for other elements. -/
theorem C2_counterexample :
    (check_line_collision sampleLOSState ⟨0, 20⟩ ⟨0, 30⟩ none none).1 = false ∧
    (check_line_collision
        (check_line_collision sampleLOSState ⟨0, 20⟩ ⟨0, 30⟩ none none).2
        ⟨0, 5⟩ ⟨30, 5⟩ none none).1 = true := by
  refine ⟨?_, ?_⟩ <;>
    norm_num [check_line_collision, line_cross_check, boxLines, intersect,
      wallMem, removeFirst, sampleLOSState, sampleWall]

/-- Claim C2 (amended): the visibility memory is keyed on the wall being
the SUBJECT of the check, not on walls being seen through: once a wall
`w` has left `unseen_walls` (its own check succeeded), every later check
with `w` as subject immediately reports non-blocking and leaves the
state untouched; `unseen_walls` only ever shrinks, so this persists for
the rest of the level.  Walls that have been seen still block other
elements' checks whenever the segment crosses them. -/
theorem C2_visibility_memory (s : LOSState) (p1 p2 : Vector2)
    (ign : Option WallS) (w : WallS) (h : wallMem s.unseen_walls w = false) :
    check_line_collision s p1 p2 (some w) ign = (false, s) ∧
    ∀ q1 q2 what ig,
      ((check_line_collision s q1 q2 what ig).2).unseen_walls ⊆ s.unseen_walls := by
  refine ⟨?_, fun q1 q2 what ig => check_line_collision_unseen_mono s q1 q2 what ig⟩
  simp [check_line_collision, ENABLE_WALL_VISIBILITY_CHECK, h]

/-- Claim C2, witness instance of the amended theorem: a level state in
which `sampleWall` has already been seen. -/
theorem C2_witness :
    wallMem (LOSState.unseen_walls ⟨[sampleWall], []⟩) sampleWall = false ∧
    (check_line_collision ⟨[sampleWall], []⟩ ⟨0, 5⟩ ⟨30, 5⟩ (some sampleWall) none =
        (false, ⟨[sampleWall], []⟩) ∧
      ∀ q1 q2 what ig,
        ((check_line_collision ⟨[sampleWall], []⟩ q1 q2 what ig).2).unseen_walls ⊆
          LOSState.unseen_walls ⟨[sampleWall], []⟩) :=
  ⟨rfl, C2_visibility_memory ⟨[sampleWall], []⟩ ⟨0, 5⟩ ⟨30, 5⟩ none sampleWall rfl⟩

/-! ## Claim C6 — corner-order dependence of `collision_check` -/

/-- Claim C6, counterexample: with box B strictly inside box A,
`collision_check(A, B)` is true with A's corners in construction order
but false with A's corners swapped — the result depends on the stored
corner ordering. -/
theorem C6_counterexample :
    collision_check (⟨0, 0⟩, ⟨10, 10⟩) true (⟨2, 2⟩, ⟨8, 8⟩) = true ∧
    collision_check (⟨10, 10⟩, ⟨0, 0⟩) true (⟨2, 2⟩, ⟨8, 8⟩) = false := by
  refine ⟨?_, ?_⟩ <;> norm_num [collision_check, boxPoints]

/-- Claim C6 (amended): `collision_check` assumes the stored corners are
ordered; its interval tests read `coords[0]` as the low corner and
`coords[1]` as the high corner of each box.  Whenever box B's corner
range lies strictly inside ordered box A's, the test answers true for A
as constructed but false once A's corners are swapped (a swapped box's
containment interval is empty and its own corners lie outside B). -/
theorem C6_order_dependence (a0 a1 b0 b1 : Vector2)
    (h1 : a0.x < b0.x) (h2 : b0.x ≤ b1.x) (h3 : b1.x < a1.x)
    (h4 : a0.y < b0.y) (h5 : b0.y ≤ b1.y) (h6 : b1.y < a1.y) :
    collision_check (a0, a1) true (b0, b1) = true ∧
    collision_check (a1, a0) true (b0, b1) = false := by
  constructor
  · simp only [collision_check, boxPoints]
    simp
    exact Or.inl (Or.inl ⟨⟨⟨h1.le, h2.trans h3.le⟩, h4.le⟩, h5.trans h6.le⟩)
  · simp only [collision_check, boxPoints]
    simp
    refine ⟨⟨?_, ?_, ?_, ?_⟩, ?_, ?_, ?_, ?_⟩ <;> intros <;> linarith

/-- Claim C6, witness instance of the amended theorem at concrete nested
boxes. -/
theorem C6_witness :
    (Vector2.x ⟨0, 0⟩ < Vector2.x ⟨5, 5⟩ ∧ Vector2.x ⟨5, 5⟩ ≤ Vector2.x ⟨15, 15⟩ ∧
      Vector2.x ⟨15, 15⟩ < Vector2.x ⟨20, 20⟩) ∧
    (collision_check (⟨0, 0⟩, ⟨20, 20⟩) true (⟨5, 5⟩, ⟨15, 15⟩) = true ∧
      collision_check (⟨20, 20⟩, ⟨0, 0⟩) true (⟨5, 5⟩, ⟨15, 15⟩) = false) :=
  ⟨⟨by norm_num, by norm_num, by norm_num⟩,
    C6_order_dependence ⟨0, 0⟩ ⟨20, 20⟩ ⟨5, 5⟩ ⟨15, 15⟩ (by norm_num) (by norm_num)
      (by norm_num) (by norm_num) (by norm_num) (by norm_num)⟩

/-! ## Claim C1 — reload -/

/-- Claim C1, counterexample: a `Pistol(200)` satisfies
`bullets_left ≥ 2 * bullets_per_mg`, yet a direct `reload()` leaves 30
rounds in the magazine, not `bullets_per_mg = 15`, breaking the claimed
invariant `bullets_left_in_magazine ≤ bullets_per_mg`. -/
theorem C1_counterexample :
    2 * (Pistol.bullets_per_mg : Int) ≤ (Weapon.init Pistol 200).bullets_left ∧
    (Weapon.reload Pistol (Weapon.init Pistol 200)).bullets_left_in_magazine ≠
      (Pistol.bullets_per_mg : Int) ∧
    ¬ (Weapon.reload Pistol (Weapon.init Pistol 200)).bullets_left_in_magazine ≤
      (Pistol.bullets_per_mg : Int) := by
  refine ⟨by decide, by decide, by decide⟩

/-- Claim C1 (amended): `reload()` resets the reload cooldown, subtracts
the magazine's current content from `bullets_left`, and then ADDS
`bullets_per_mg` to the magazine contents rather than refilling exactly
to capacity; hence the magazine ends at `bullets_per_mg` only when it
was empty, and two consecutive reloads add `2 * bullets_per_mg`. -/
theorem C1_reload_behavior (c : WeaponClass) (w : WeaponState) :
    (Weapon.reload c w).until_reload = c.reload_rate ∧
    (Weapon.reload c w).bullets_left = w.bullets_left - w.bullets_left_in_magazine ∧
    (Weapon.reload c w).bullets_left_in_magazine =
      w.bullets_left_in_magazine + (c.bullets_per_mg : Int) ∧
    (Weapon.reload c (Weapon.reload c w)).bullets_left_in_magazine =
      w.bullets_left_in_magazine + 2 * (c.bullets_per_mg : Int) := by
  refine ⟨rfl, rfl, rfl, ?_⟩
  simp [Weapon.reload]
  ring

/-! ## Claim C3 — pierce/armor damage split -/

/-- Claim C3, counterexample: a living entity with `armor = 0` hit by a
pierce-50, damage-10 bullet loses 5 hp, not the full 10 the claim
asserts (the armor share of the damage is discarded, never carried over
to hp). -/
theorem C3_counterexample :
    (hit ⟨100, 0, false⟩ ⟨10, 50⟩).1.hp = 95 ∧
    (hit ⟨100, 0, false⟩ ⟨10, 50⟩).1.hp ≠ 100 - 10 := by
  refine ⟨by norm_num [hit], by norm_num [hit]⟩

/-- Claim C3 (amended): for a living entity hit by a pierce-50,
damage-10 bullet, while `armor ≥ 5` both hp and armor decrease by
exactly 5; once armor is 0 each further hit still decreases hp by
exactly 5 only, with armor staying 0 — the armor share is dropped, not
applied to hp. -/
theorem C3_damage_split (e : POE) (hd : e.dead = false) :
    (5 ≤ e.armor →
      (hit e ⟨10, 50⟩).1.hp = e.hp - 5 ∧ (hit e ⟨10, 50⟩).1.armor = e.armor - 5) ∧
    (e.armor = 0 →
      (hit e ⟨10, 50⟩).1.hp = e.hp - 5 ∧ (hit e ⟨10, 50⟩).1.armor = 0) := by
  constructor
  · intro ha
    unfold hit
    simp only [hd, Bool.false_eq_true, if_false]
    have h5 : (10 : ℚ) * ((50 : ℚ) / 100) = 5 := by norm_num
    have h5' : (10 : ℚ) * (1 - (50 : ℚ) / 100) = 5 := by norm_num
    have hmax : max (e.armor - 10 * (1 - (50 : ℚ) / 100)) 0 = e.armor - 5 := by
      rw [h5']
      exact max_eq_left (by linarith)
    split <;> simp [h5, hmax]
  · intro ha
    unfold hit
    simp only [hd, Bool.false_eq_true, if_false]
    have h5 : (10 : ℚ) * ((50 : ℚ) / 100) = 5 := by norm_num
    have hmax : max (e.armor - 10 * (1 - (50 : ℚ) / 100)) 0 = 0 := by
      rw [ha]
      norm_num
    split <;> simp [h5, hmax]

/-- Claim C3, witness instance of the amended theorem at a concrete
living entity. -/
theorem C3_witness :
    POE.dead ⟨100, 10, false⟩ = false ∧
    ((5 ≤ POE.armor ⟨100, 10, false⟩ →
        (hit ⟨100, 10, false⟩ ⟨10, 50⟩).1.hp = POE.hp ⟨100, 10, false⟩ - 5 ∧
        (hit ⟨100, 10, false⟩ ⟨10, 50⟩).1.armor = POE.armor ⟨100, 10, false⟩ - 5) ∧
      (POE.armor ⟨100, 10, false⟩ = 0 →
        (hit ⟨100, 10, false⟩ ⟨10, 50⟩).1.hp = POE.hp ⟨100, 10, false⟩ - 5 ∧
        (hit ⟨100, 10, false⟩ ⟨10, 50⟩).1.armor = 0)) :=
  ⟨by decide, C3_damage_split ⟨100, 10, false⟩ (by decide)⟩

/-! ## Claim C9 — hitting a dead entity is a no-op -/

/-- Claim C9: `hit(bullet)` on an already-dead entity returns the state
unchanged for every bullet (hp, armor and the dead flag keep their
values, no `on_die` hook fires, no `"die"` event is emitted), and over
any sequence of hits at most one `"die"` event is ever produced. -/
theorem C9_dead_hit_noop (e : POE) :
    (e.dead = true → ∀ b, hit e b = (e, false)) ∧
    (∀ bs, (hitMany e bs).2 ≤ 1) :=
  ⟨fun h b => hit_dead e b h, fun bs => hitMany_le_one e bs⟩

/-- Claim C9, witness instance at a concrete dead entity. -/
theorem C9_witness :
    (POE.dead ⟨50, 20, true⟩ = true → ∀ b, hit ⟨50, 20, true⟩ b = (⟨50, 20, true⟩, false)) ∧
    (∀ bs, (hitMany ⟨50, 20, true⟩ bs).2 ≤ 1) :=
  C9_dead_hit_noop ⟨50, 20, true⟩

/-! ## Claim C5 — door merge and the wall merge table -/

/-- Claim C5: on the two-row door layout `11` / `1.` the source's door
merge (whose vertical test reads the wall set `merged_horizontal`, which
never contains door cells) collapses everything into one rectangle,
while the spec's independent-table algorithm keeps the horizontally
merged top rectangle and starts a new one below: the outputs differ. -/
theorem C5_door_merge_divergence :
    (parseTilemap ⟨1, 1⟩ [['1', '1'], ['1', '.']]).doors =
      [(0, (⟨0, 0⟩, ⟨1, 2⟩))] ∧
    (parseTilemapIndepDoors ⟨1, 1⟩ [['1', '1'], ['1', '.']]).doors =
      [(0, (⟨0, 0⟩, ⟨2, 1⟩)), (0, (⟨0, 1⟩, ⟨1, 2⟩))] ∧
    (parseTilemap ⟨1, 1⟩ [['1', '1'], ['1', '.']]).doors ≠
      (parseTilemapIndepDoors ⟨1, 1⟩ [['1', '1'], ['1', '.']]).doors := by
  refine ⟨?_, ?_, ?_⟩ <;>
    simp +decide [parseTilemap, parseTilemapIndepDoors, processRows, processCells,
      processCell, processRowsIndepDoors, processCellsIndepDoors, processCellIndepDoors,
      cellCoords, initTilemapState, posMem, posAdd, idxLookup, setSnd, setSndD,
      isUpperAZ, isLowerAZ, isDigit09] <;>
    norm_num

/-! ## Claim C7 — tilemap column cap -/

set_option maxRecDepth 10000 in
/-- Claim C7, counterexample: a `#` at column index 64 is processed and
produces a wall, although the claim says columns 64 and beyond are
ignored. -/
theorem C7_counterexample :
    (parseTilemap ⟨1, 1⟩ [List.replicate 64 '.' ++ ['#']]).walls =
      [(⟨64, 0⟩, ⟨65, 1⟩)] ∧
    (parseTilemap ⟨1, 1⟩ [List.replicate 64 '.' ++ ['#']]).walls ≠ [] := by
  refine ⟨?_, ?_⟩ <;>
    simp +decide [parseTilemap, processRows, processCells, processCell,
      cellCoords, initTilemapState, posMem, posAdd, idxLookup, setSnd, setSndD,
      isUpperAZ, isLowerAZ, isDigit09, List.replicate] <;>
    norm_num

/-- Claim C7 (amended): the grid scan skips columns with index strictly
greater than 64, so columns 0 through 64 are processed and characters
from column 65 on are ignored — truncating every line to its first 65
characters never changes the parse result. -/
theorem C7_column_cap (cs : Vector2) (rows : List (List Char)) :
    parseTilemap cs rows = parseTilemap cs (rows.map (fun r => r.take 65)) :=
  processRows_take cs rows 0 initTilemapState

/-! ## Claim C4 — horizontal wall-run merge -/

/-- Claim C4: a grid line holding a horizontal run of N `#` cells
starting at column `x0` (preceded by empty cells, nothing in the row
above, run inside the processed column range) parses to exactly one wall
rectangle, spanning from the run's first cell to its last. -/
theorem C4_horizontal_run_merge (cs : Vector2) (x0 N : Nat)
    (hN : 1 ≤ N) (hbound : x0 + N ≤ 65) :
    (parseTilemap cs [List.replicate x0 '.' ++ List.replicate N '#']).walls =
      [((cellCoords cs x0 0).1, (cellCoords cs (x0 + N - 1) 0).2)] := by
  have hrow : parseTilemap cs [List.replicate x0 '.' ++ List.replicate N '#'] =
      processCells cs 0 0 (List.replicate x0 '.' ++ List.replicate N '#')
        initTilemapState := by
    rfl
  rw [hrow, processCells_append, processCells_dots, List.length_replicate]
  obtain ⟨N', rfl⟩ : ∃ N', N = N' + 1 := ⟨N - 1, by omega⟩
  rw [List.replicate_succ, processCells]
  obtain ⟨hw, hi, hm⟩ := processCell_hash_new cs x0 initTilemapState rfl rfl rfl (by omega)
  have hrun := processCells_hash_run cs N' (x0 + 1)
    (processCell cs 0 x0 '#' initTilemapState) (cellCoords cs x0 0).1
    (by simpa using hw) (by simpa using hi) hm (by omega) (by omega)
  simpa [show x0 + 1 + N' - 1 = x0 + (N' + 1) - 1 by omega] using hrun

/-- Claim C4, witness instance: a run of three `#` cells starting at
column 2 yields the single rectangle spanning cells 2 through 4. -/
theorem C4_witness :
    1 ≤ 3 ∧ 2 + 3 ≤ 65 ∧
    (parseTilemap ⟨1, 1⟩ [List.replicate 2 '.' ++ List.replicate 3 '#']).walls =
      [((cellCoords ⟨1, 1⟩ 2 0).1, (cellCoords ⟨1, 1⟩ (2 + 3 - 1) 0).2)] :=
  ⟨by decide, by decide, C4_horizontal_run_merge ⟨1, 1⟩ 2 3 (by decide) (by decide)⟩

/-! ## Claim C8 — enemy approach speed scaling -/

/-- Claim C8, counterexample: with the target 20 units away and weapon
range 10, the computed approach vector has magnitude 6 = speed × (d ÷
range), not speed × min(1, d ÷ range) = 3 — the scaling factor is not
capped at 1. -/
theorem C8_counterexample :
    10 < (RVector2.sub ⟨0, 20⟩ ⟨0, 0⟩).norm ∧
    (enemyApproachMovevect ⟨0, 0⟩ ⟨0, 20⟩ 3 10).norm = 6 ∧
    (enemyApproachMovevect ⟨0, 0⟩ ⟨0, 20⟩ 3 10).norm ≠
      3 * min 1 ((RVector2.sub ⟨0, 20⟩ ⟨0, 0⟩).norm / 10) := by
  have hnorm : (RVector2.sub (⟨0, 20⟩ : RVector2) ⟨0, 0⟩).norm = 20 := by
    unfold RVector2.sub RVector2.norm
    norm_num
    rw [show (400 : ℝ) = 20 ^ 2 by norm_num, Real.sqrt_sq (by norm_num : (0 : ℝ) ≤ 20)]
  have h6 : (enemyApproachMovevect ⟨0, 0⟩ ⟨0, 20⟩ 3 10).norm = 6 := by
    unfold enemyApproachMovevect RVector2.normalize
    rw [RVector2.norm_smul, RVector2.norm_smul, RVector2.norm_smul, hnorm]
    rw [show |(1 : ℝ) / 20| = 1 / 20 from abs_of_nonneg (by norm_num)]
    norm_num
  refine ⟨by rw [hnorm]; norm_num, h6, ?_⟩
  rw [h6, hnorm]
  norm_num

/-- Claim C8 (amended): the approach vector's magnitude is
`speed * (d / weapon.rng)` with no cap — the enemy speeds up
proportionally when the target lies beyond weapon range. -/
theorem C8_move_magnitude (center target : RVector2) (speed rng : ℝ)
    (hd : 0 < (target.sub center).norm) (hs : 0 ≤ speed) (hr : 0 < rng) :
    (enemyApproachMovevect center target speed rng).norm =
      speed * ((target.sub center).norm / rng) := by
  have hd0 : (target.sub center).norm ≠ 0 := ne_of_gt hd
  unfold enemyApproachMovevect RVector2.normalize
  rw [RVector2.norm_smul, RVector2.norm_smul, RVector2.norm_smul]
  rw [abs_of_pos (div_pos hd hr), abs_of_nonneg hs,
    abs_of_nonneg (by positivity : (0 : ℝ) ≤ 1 / (target.sub center).norm)]
  field_simp
  ring

/-- Claim C8, witness instance of the amended theorem: a 3-4-5 offset,
speed 2 and range 5 give magnitude 2 × (5 ÷ 5) = 2. -/
theorem C8_witness :
    0 < (RVector2.sub ⟨3, 4⟩ ⟨0, 0⟩).norm ∧ (0 : ℝ) ≤ 2 ∧ (0 : ℝ) < 5 ∧
    (enemyApproachMovevect ⟨0, 0⟩ ⟨3, 4⟩ 2 5).norm =
      2 * ((RVector2.sub ⟨3, 4⟩ ⟨0, 0⟩).norm / 5) := by
  have hd : 0 < (RVector2.sub (⟨3, 4⟩ : RVector2) ⟨0, 0⟩).norm := by
    unfold RVector2.sub RVector2.norm
    apply Real.sqrt_pos.mpr
    norm_num
  exact ⟨hd, by norm_num, by norm_num,
    C8_move_magnitude ⟨0, 0⟩ ⟨3, 4⟩ 2 5 hd (by norm_num) (by norm_num)⟩

/-! ## Claim C10 — spread angle count and shot emission -/

/-- Claim C10: for every weapon class with `bullets_per_shot = n ≥ 1`
the precomputed `_bullet_angles` tuple has exactly n entries, and a
shoot with at least n rounds in the magazine emits exactly n bullet
descriptors while decrementing both the magazine and the total pool by
n. -/
theorem C10_shoot_count (c : WeaponClass) (w : WeaponState) (source target : RVector2)
    (friendly : Bool) (racc : Int) (hn : 1 ≤ c.bullets_per_shot)
    (hmag : (c.bullets_per_shot : Int) ≤ w.bullets_left_in_magazine) :
    (Weapon.bullet_angles c).length = c.bullets_per_shot ∧
    ∃ l, (Weapon.shoot c w source target friendly racc).2 = some l ∧
      l.length = c.bullets_per_shot ∧
      (Weapon.shoot c w source target friendly racc).1.bullets_left_in_magazine =
        w.bullets_left_in_magazine - (c.bullets_per_shot : Int) ∧
      (Weapon.shoot c w source target friendly racc).1.bullets_left =
        w.bullets_left - (c.bullets_per_shot : Int) := by
  refine ⟨bullet_angles_length c, ?_⟩
  unfold Weapon.shoot
  dsimp only
  rw [if_neg (by simpa using not_lt.mpr hmag)]
  exact ⟨_, rfl, by rw [List.length_map, bullet_angles_length], rfl, rfl⟩

/-- Claim C10, witness instance: a fresh `Shotgun(20)` (five-round
magazine, five bullets per shot) emits exactly five descriptors and
drops both counters by five. -/
theorem C10_witness :
    1 ≤ Shotgun.bullets_per_shot ∧
    (Shotgun.bullets_per_shot : Int) ≤ (Weapon.init Shotgun 20).bullets_left_in_magazine ∧
    ((Weapon.bullet_angles Shotgun).length = Shotgun.bullets_per_shot ∧
      ∃ l, (Weapon.shoot Shotgun (Weapon.init Shotgun 20) ⟨0, 0⟩ ⟨1, 0⟩ false 0).2 =
          some l ∧
        l.length = Shotgun.bullets_per_shot ∧
        (Weapon.shoot Shotgun (Weapon.init Shotgun 20) ⟨0, 0⟩ ⟨1, 0⟩ false
              0).1.bullets_left_in_magazine =
          (Weapon.init Shotgun 20).bullets_left_in_magazine -
            (Shotgun.bullets_per_shot : Int) ∧
        (Weapon.shoot Shotgun (Weapon.init Shotgun 20) ⟨0, 0⟩ ⟨1, 0⟩ false
              0).1.bullets_left =
          (Weapon.init Shotgun 20).bullets_left - (Shotgun.bullets_per_shot : Int)) :=
  ⟨by decide, by decide,
    C10_shoot_count Shotgun (Weapon.init Shotgun 20) ⟨0, 0⟩ ⟨1, 0⟩ false 0
      (by decide) (by decide)⟩

